import Mathlib

/-!
Shallow embedding of the hot-updater bundle lifecycle orchestration:
the admin console's rpc handlers (soft delete, disable, complete delete,
bulk object delete, listing, bundle sizes), the R2 storage plugin's
deleteBundle, and the client-side wrappers with their size cache.

Handlers are modelled as pure functions of the request data plus the
outcomes of the external backends (metadata plugin, Cloudflare R2 HTTP
API); each returns the JSON body it would send, the HTTP status, the
committed metadata state and a count of backend calls made.
-/

namespace HotUpdater

/-- An object stored in R2: its key and size in bytes. -/
structure R2Obj where
  key : String
  size : Nat
deriving DecidableEq

/-- Cloudflare configuration read from environment variables; each variable
is either absent (`none`) or a string, possibly empty. -/
structure R2Config where
  apiToken : Option String
  accountId : Option String
  bucketName : Option String
deriving DecidableEq

/-- JavaScript truthiness of an optional environment string: `undefined`
and the empty string are falsy. -/
def envTruthy : Option String → Bool
  | none => false
  | some s => s != ""

/-- The config guard `!apiToken || !accountId || !bucketName` in positive
form: all three R2 environment variables are present and non-empty. -/
def r2ConfigOk (cfg : R2Config) : Bool :=
  envTruthy cfg.apiToken && envTruthy cfg.accountId && envTruthy cfg.bucketName

/-- A bundle row in the metadata store; only the fields the lifecycle
operations touch are modelled. -/
structure BundleRec where
  id : String
  enabled : Bool
deriving DecidableEq

/-- Outcome of the metadata `updateBundle` + `commitBundle` pair: either
the staged mutation commits, or the database plugin throws. -/
inductive MetaOutcome
  | ok
  | err (msg : String)
deriving DecidableEq

/-- The committed effect of `updateBundle(bundleId, enabled := false)`
followed by `commitBundle()`. -/
def disableInDb (db : List BundleRec) (bundleId : String) : List BundleRec :=
  db.map fun r => if r.id = bundleId then { r with enabled := false } else r

/-- Outcome of one storage-plugin or wrangler call: it returns normally or
throws an error carrying a message. -/
inductive StorageOutcome
  | ok
  | thrown (msg : String)
deriving DecidableEq

/-- JavaScript `String.prototype.includes`. -/
def strIncludes (s pat : String) : Bool :=
  pat == "" || (s.splitOn pat).length != 1

/-- JavaScript `String.prototype.startsWith`, over the character lists. -/
def strStartsWith (s pat : String) : Bool :=
  pat.toList.isPrefixOf s.toList

/-- The r2Storage plugin's deleteBundle: runs a wrangler object delete and
wraps failures; a thrown "Bundle Not Found" is swallowed and reported as
success; a missing wrangler CLI and any other failure are rethrown as
errors. -/
def r2StorageDeleteBundle (bundleId : String) (wranglerOutcome : StorageOutcome) :
    Except String String :=
  match wranglerOutcome with
  | .ok => .ok bundleId
  | .thrown m =>
    if m = "Bundle Not Found" then .ok bundleId
    else if strIncludes m "wrangler: command not found" ||
        strIncludes m "Command failed with exit code 127" then
      .error "Wrangler CLI khong duoc tim thay. Vui long cai dat bang: npm install -g wrangler"
    else
      .error ("Failed to delete bundle " ++ bundleId ++ " from R2: " ++ m)

/-- Backend behaviour of the wrangler object delete against a bucket whose
contents are the listed keys: deleting a present key removes it and
succeeds; deleting an absent key throws "Bundle Not Found". -/
def wranglerDelete (store : List String) (key : String) : StorageOutcome × List String :=
  if key ∈ store then (.ok, store.erase key)
  else (.thrown "Bundle Not Found", store)

/-- Two sequential calls of the plugin's deleteBundle for the same key
against the bucket, threading the bucket state through. -/
def deleteTwice (store : List String) (key : String) :
    Except String String × Except String String :=
  let first := wranglerDelete store key
  let second := wranglerDelete first.2 key
  (r2StorageDeleteBundle key first.1, r2StorageDeleteBundle key second.1)

/-- JSON body of the soft-delete endpoint DELETE /bundles/:bundleId. -/
structure DeleteBundleBody where
  success : Bool
  partialSuccess : Option Bool := none
  storageError : Option String := none
  message : Option String := none
  error : Option String := none
deriving DecidableEq

/-- Result of the soft-delete handler: response body, HTTP status and the
metadata store as committed after the call. -/
structure DeleteBundleResult where
  body : DeleteBundleBody
  status : Nat
  db : List BundleRec
deriving DecidableEq

/-- The DELETE /bundles/:bundleId handler: optionally attempts the storage
plugin delete, swallowing "Bundle Not Found" and capturing any other
thrown message as storageError; then unconditionally disables the record
in metadata; a metadata failure is a hard 500, a captured storage error
yields success with partialSuccess. -/
def deleteBundleHandler (bundleId : String) (storageConfigured : Bool)
    (storage : StorageOutcome) (meta : MetaOutcome) (db : List BundleRec) :
    DeleteBundleResult :=
  let storageError : Option String :=
    if storageConfigured then
      match storage with
      | .ok => none
      | .thrown m => if m = "Bundle Not Found" then none else some m
    else none
  match meta with
  | .err m =>
    { body := { success := false, error := some m }, status := 500, db := db }
  | .ok =>
    let db' := disableInDb db bundleId
    match storageError with
    | some m =>
      { body := { success := true, partialSuccess := some true, storageError := some m,
                  message := some "Bundle da bi xoa khoi database nhung khong the xoa file tu storage" },
        status := 200, db := db' }
    | none =>
      { body := { success := true,
                  message := some "Bundle da duoc xoa thanh cong" },
        status := 200, db := db' }

/-- The JSON request body of DELETE /r2/objects as the handler may receive
it: a bare array of keys, or an object wrapping the keys in a field (the
shape the complete-delete and server bulk-delete paths send). -/
inductive KeysBody
  | arr (keys : List String)
  | wrapped (keys : List String)
deriving DecidableEq

/-- Per-key entry of the bulk object delete's results list. -/
structure KeyResult where
  key : String
  success : Bool
  error : Option String := none
deriving DecidableEq

/-- JSON body of DELETE /r2/objects; counts and results are absent on the
error paths, mirroring the undefined fields of the error bodies. -/
structure BulkObjectsBody where
  success : Bool
  totalObjects : Option Nat := none
  deletedObjects : Option Nat := none
  message : Option String := none
  results : Option (List KeyResult) := none
  error : Option String := none
deriving DecidableEq

/-- Result of DELETE /r2/objects: body, status, number of per-key backend
delete calls issued. -/
structure BulkObjectsResult where
  body : BulkObjectsBody
  status : Nat
  backendCalls : Nat
deriving DecidableEq

/-- One iteration of the per-key loop: a key whose backend DELETE answers
ok yields a success entry, any failing or throwing call yields a failure
entry with an error string; the loop never aborts. -/
def deleteOneKey (delOk : String → Bool) (k : String) : KeyResult :=
  if delOk k then { key := k, success := true }
  else { key := k, success := false, error := some "delete failed" }

/-- The DELETE /r2/objects handler: rejects a body that is not a non-empty
array (Array.isArray fails on the wrapped-object shape), rejects missing R2
configuration, then deletes each key independently and reports the
aggregate with per-key detail. -/
def r2ObjectsDeleteHandler (cfg : R2Config) (bodyIn : KeysBody)
    (delOk : String → Bool) : BulkObjectsResult :=
  match bodyIn with
  | .wrapped _ =>
    { body := { success := false, error := some "Danh sach keys khong hop le hoac trong" },
      status := 400, backendCalls := 0 }
  | .arr keys =>
    if keys.isEmpty then
      { body := { success := false, error := some "Danh sach keys khong hop le hoac trong" },
        status := 400, backendCalls := 0 }
    else if !r2ConfigOk cfg then
      { body := { success := false, error := some "Thieu cau hinh R2" },
        status := 500, backendCalls := 0 }
    else
      let results := keys.map (deleteOneKey delOk)
      let successCount := (results.filter (·.success)).length
      { body := { success := decide (0 < successCount),
                  totalObjects := some keys.length,
                  deletedObjects := some successCount,
                  message := some "Da xoa tep tu R2 storage",
                  results := some results },
        status := 200, backendCalls := keys.length }

/-- The single page of objects one list GET returns when the backend has
paginated its data into successive pages. -/
def firstPage (pages : List (List R2Obj)) : List R2Obj :=
  pages.headD []

/-- Outcome of the single list GET issued by the handlers: the response is
not ok, or it is ok and the backend's data is paginated into pages. -/
inductive ListOutcome
  | notOk (statusText : String)
  | ok (pages : List (List R2Obj))
deriving DecidableEq

/-- JSON body of GET /r2/objects. -/
structure ListObjectsBody where
  success : Bool
  objects : Option (List R2Obj) := none
  error : Option String := none
deriving DecidableEq

/-- Result of GET /r2/objects: body, status, backend calls issued. -/
structure ListObjectsResult where
  body : ListObjectsBody
  status : Nat
  backendCalls : Nat
deriving DecidableEq

/-- The GET /r2/objects handler: checks configuration, then issues exactly
one list request (limit 1000) and returns the objects of that single
response; no truncation marker is followed. -/
def r2ObjectsListHandler (cfg : R2Config) (listing : ListOutcome) : ListObjectsResult :=
  if !r2ConfigOk cfg then
    { body := { success := false, error := some "Thieu thong tin cau hinh Cloudflare" },
      status := 400, backendCalls := 0 }
  else
    match listing with
    | .notOk st =>
      { body := { success := false, error := some ("Failed to fetch R2 objects: " ++ st) },
        status := 500, backendCalls := 1 }
    | .ok pages =>
      { body := { success := true, objects := some (firstPage pages) },
        status := 200, backendCalls := 1 }

/-- JSON body of POST /r2/delete/:bundleId. -/
structure SimpleBody where
  success : Bool
  message : Option String := none
  error : Option String := none
deriving DecidableEq

/-- Result of POST /r2/delete/:bundleId. -/
structure R2DeleteResult where
  body : SimpleBody
  status : Nat
  backendCalls : Nat
deriving DecidableEq

/-- The POST /r2/delete/:bundleId handler: with any R2 environment variable
missing it answers a 400 configuration error before any backend call;
otherwise it issues one DELETE for the key bundleId/bundle.zip. -/
def r2DeleteHandler (bundleId : String) (cfg : R2Config) (deleteOk : Bool) :
    R2DeleteResult :=
  if !r2ConfigOk cfg then
    { body := { success := false, error := some "Thieu thong tin cau hinh Cloudflare R2" },
      status := 400, backendCalls := 0 }
  else if deleteOk then
    { body := { success := true,
                message := some ("Da xoa bundle " ++ bundleId ++ " thanh cong tu R2 storage") },
      status := 200, backendCalls := 1 }
  else
    { body := { success := false, error := some "Loi khi xoa tu R2" },
      status := 200, backendCalls := 1 }

/-- The r2Result field complete-delete copies out of the internal bulk
delete response (the DeleteResult cast): success flag and the two counts,
each count absent when the response carries none. -/
structure R2DeleteCounts where
  success : Bool
  deletedObjects : Option Nat := none
  totalObjects : Option Nat := none
deriving DecidableEq

/-- JSON body of POST /bundles/:bundleId/complete-delete. -/
structure CompleteDeleteBody where
  success : Bool
  message : Option String := none
  error : Option String := none
  r2Result : Option R2DeleteCounts := none
deriving DecidableEq

/-- Result of the complete-delete handler: body, status, committed
metadata store, and the number of storage backend calls issued. -/
structure CompleteDeleteResult where
  body : CompleteDeleteBody
  status : Nat
  db : List BundleRec
  storageCalls : Nat
deriving DecidableEq

/-- The POST /bundles/:bundleId/complete-delete handler: disables the
record in metadata first (a failure there is a hard 500); with missing R2
configuration it still answers success, storage cleanup skipped; otherwise
it lists the keys under the bundle's id with one GET and forwards them to
DELETE /r2/objects wrapped in an object body, copying that response's
success and counts into r2Result. -/
def completeDeleteHandler (bundleId : String) (meta : MetaOutcome) (cfg : R2Config)
    (listing : ListOutcome) (delOk : String → Bool) (db : List BundleRec) :
    CompleteDeleteResult :=
  match meta with
  | .err m =>
    { body := { success := false, error := some m }, status := 500, db := db,
      storageCalls := 0 }
  | .ok =>
    let db' := disableInDb db bundleId
    if !r2ConfigOk cfg then
      { body := { success := true,
                  message := some "Bundle da bi vo hieu hoa trong database, nhung khong the xoa tu R2 do thieu cau hinh" },
        status := 200, db := db', storageCalls := 0 }
    else
      match listing with
      | .notOk st =>
        { body := { success := true,
                    message := some ("Bundle da bi vo hieu hoa trong database, nhung khong the liet ke file trong R2: " ++ st) },
          status := 200, db := db', storageCalls := 1 }
      | .ok pages =>
        let objects := firstPage pages
        if objects.isEmpty then
          { body := { success := true,
                      message := some "Bundle da bi vo hieu hoa trong database, khong co file R2 can xoa" },
            status := 200, db := db', storageCalls := 1 }
        else
          let objectKeys := objects.map (·.key)
          let deleteResult := r2ObjectsDeleteHandler cfg (.wrapped objectKeys) delOk
          { body := { success := true,
                      message := some "Bundle da bi vo hieu hoa trong database, file da bi xoa tu R2",
                      r2Result := some { success := deleteResult.body.success,
                                         deletedObjects := deleteResult.body.deletedObjects,
                                         totalObjects := deleteResult.body.totalObjects } },
            status := 200, db := db', storageCalls := 1 + deleteResult.backendCalls }

/-- Server-side size for one id (POST /bundle-sizes): the first listed
object whose key starts with id/ gives the size, otherwise 0. -/
def bundleSizeFor (objects : List R2Obj) (bundleId : String) : Nat :=
  match objects.find? (fun o => strStartsWith o.key (bundleId ++ "/")) with
  | some o => o.size
  | none => 0

/-- The client fetch against POST /bundle-sizes: one batched request
returning a size for every requested id. -/
def fetchFileSizesFromR2 (objects : List R2Obj) (bundleIds : List String) :
    List (String × Nat) :=
  bundleIds.map fun bundleId => (bundleId, bundleSizeFor objects bundleId)

/-- Lookup in the module-level fileSizeCache, a JS record from bundle id to
size; prepended entries shadow older ones. -/
def cacheLookup (cache : List (String × Nat)) (bundleId : String) : Option Nat :=
  (cache.find? (fun p => p.1 == bundleId)).map (·.2)

/-- JS truthiness of fileSizeCache[id]: an absent entry and a recorded 0
are both falsy, so the uncached filter keeps both. -/
def cacheTruthy (cache : List (String × Nat)) (bundleId : String) : Bool :=
  match cacheLookup cache bundleId with
  | some n => n != 0
  | none => false

/-- What one getFileSizes call produces: the returned mapping, the cache
left behind, and how many batched backend fetches were issued (0 or 1). -/
structure GetFileSizesResult where
  fileSizes : List (String × Nat)
  cache : List (String × Nat)
  fetchCalls : Nat
deriving DecidableEq

/-- The client getFileSizes: ids whose cache entry is falsy count as
uncached and are refetched in one batched call; fetched sizes are written
to the cache; the returned mapping reads every id from the cache with
fallback 0. -/
def getFileSizes (objects : List R2Obj) (cache : List (String × Nat))
    (bundleIds : List String) : GetFileSizesResult :=
  let uncachedIds := bundleIds.filter fun bundleId => !cacheTruthy cache bundleId
  let fetched :=
    if uncachedIds.isEmpty then (cache, 0)
    else
      let newSizes := fetchFileSizesFromR2 objects uncachedIds
      (newSizes.foldl (fun c p => (p.1, p.2) :: c) cache, 1)
  { fileSizes := bundleIds.map fun bundleId =>
      (bundleId, (cacheLookup fetched.1 bundleId).getD 0),
    cache := fetched.1, fetchCalls := fetched.2 }

/-- Backend outcomes per bundle id for the direct D1/R2 delete path:
whether the D1 row delete call and the R2 object delete call succeed. -/
structure D1R2Env where
  d1Ok : String → Bool
  r2Ok : String → Bool

/-- The success-bearing part of one internal endpoint answer, with the
optional partialSuccess flag the client also reads (never set by the
/r2/delete/:bundleId endpoint). -/
structure InnerResult where
  success : Bool
  partialSuccess : Option Bool := none
deriving DecidableEq

/-- Combined result of the client deleteD1Bundle: one D1 delete call and
one R2 delete call; the combined success flag requires both. -/
structure DeleteD1BundleResult where
  success : Bool
  d1Result : InnerResult
  r2Result : InnerResult
deriving DecidableEq

/-- The client deleteD1Bundle for one bundle id. -/
def deleteD1Bundle (env : D1R2Env) (bundleId : String) : DeleteD1BundleResult :=
  let d := env.d1Ok bundleId
  let r := env.r2Ok bundleId
  { success := d && r, d1Result := { success := d }, r2Result := { success := r } }

/-- Per-bundle entry of bulkDeleteBundles' details list. -/
structure BundleItemResult where
  bundleId : String
  success : Bool
  d1Success : Bool
  r2Success : Bool
deriving DecidableEq

/-- Aggregate result of the client bulkDeleteBundles: overall flag, the
per-layer success counters, total and per-bundle detail. -/
structure BulkDeleteBundlesResult where
  success : Bool
  d1Success : Nat
  r2Success : Nat
  total : Nat
  details : List BundleItemResult
  error : Option String := none
deriving DecidableEq

/-- One iteration of the sequential bulk loop, updating the running
all-succeeded flag, both counters and the detail list. -/
def bulkStep (env : D1R2Env) (acc : Bool × Nat × Nat × List BundleItemResult)
    (bundleId : String) : Bool × Nat × Nat × List BundleItemResult :=
  let result := deleteD1Bundle env bundleId
  let r2s := result.r2Result.success || result.r2Result.partialSuccess.getD false
  (acc.1 && result.success,
    acc.2.1 + (if result.d1Result.success then 1 else 0),
    acc.2.2.1 + (if r2s then 1 else 0),
    acc.2.2.2 ++ [{ bundleId := bundleId, success := result.success,
                    d1Success := result.d1Result.success, r2Success := r2s }])

/-- The client bulkDeleteBundles: rejects an empty selection, iterates the
ids sequentially, and reports overall success when every item fully
succeeded or at least one D1 delete succeeded. -/
def bulkDeleteBundles (env : D1R2Env) (bundleIds : List String) :
    BulkDeleteBundlesResult :=
  if bundleIds.isEmpty then
    { success := false, d1Success := 0, r2Success := 0, total := 0, details := [],
      error := some "Khong co bundle nao duoc chon de xoa" }
  else
    let folded := bundleIds.foldl (bulkStep env) (true, 0, 0, [])
    { success := folded.1 || decide (0 < folded.2.1),
      d1Success := folded.2.1, r2Success := folded.2.2.1,
      total := bundleIds.length, details := folded.2.2.2 }

/-- The JSON fields a server answer to the delete/disable endpoints can
carry; a field is none when the body does not contain it. -/
structure ServerJson where
  success : Option Bool := none
  partialSuccess : Option Bool := none
  storageError : Option String := none
  message : Option String := none
  error : Option String := none
deriving DecidableEq

/-- Outcome of the client's HTTP call: the request resolves with a status
and JSON body (also for error statuses), or it throws. -/
inductive FetchOutcome
  | resolved (status : Nat) (body : ServerJson)
  | thrown (msg : String)
deriving DecidableEq

/-- The client-side result record of deleteBundle/disableBundle. -/
structure ClientResponse where
  success : Bool
  partialSuccess : Option Bool := none
  storageError : Option String := none
  message : Option String := none
  error : Option String := none
deriving DecidableEq

/-- Spread semantics of the literal with success true followed by the
body's fields: a success field of the body overrides the literal true,
every other field is copied. -/
def spreadSuccessTrue (data : ServerJson) : ClientResponse :=
  { success := data.success.getD true
    partialSuccess := data.partialSuccess
    storageError := data.storageError
    message := data.message
    error := data.error }

/-- Client deleteBundle wrapper over DELETE /bundles/:bundleId. -/
def clientDeleteBundle : FetchOutcome → ClientResponse
  | .resolved _ body => spreadSuccessTrue body
  | .thrown m => { success := false, error := some m }

/-- Client disableBundle wrapper over POST /bundles/:bundleId/disable. -/
def clientDisableBundle : FetchOutcome → ClientResponse
  | .resolved _ body => spreadSuccessTrue body
  | .thrown m => { success := false, error := some m }

end HotUpdater

namespace HotUpdater

/-- Every record of the committed store that carries the targeted id has
enabled = false after disableInDb. -/
theorem disableInDb_enabled (db : List BundleRec) (bundleId : String) :
    ∀ r ∈ disableInDb db bundleId, r.id = bundleId → r.enabled = false := by
  intro r hr hid
  rcases List.mem_map.1 hr with ⟨a, _, rfl⟩
  by_cases h : a.id = bundleId
  · simp [h]
  · simp [h] at hid

/-- The per-key delete entry always records the key it was built from. -/
theorem deleteOneKey_key (delOk : String → Bool) (k : String) :
    (deleteOneKey delOk k).key = k := by
  unfold deleteOneKey
  split <;> rfl

/-- Projecting the keys back out of the per-key loop's results returns the
input key list. -/
theorem map_key_deleteOneKey (delOk : String → Bool) (keys : List String) :
    (keys.map (deleteOneKey delOk)).map (·.key) = keys := by
  induction keys with
  | nil => rfl
  | cons a l ih => simp [deleteOneKey_key, ih]

/-- C1: when the storage deletion step of DELETE /bundles/:bundleId throws a
genuine backend error, the handler still disables the record in metadata and
commits, and reports success true with partialSuccess true and the captured
storageError, with HTTP 200 rather than a hard failure. -/
theorem deleteBundle_storageFailure_stillDisables (bundleId m : String)
    (db : List BundleRec) (hm : m ≠ "Bundle Not Found") :
    (deleteBundleHandler bundleId true (.thrown m) .ok db).body.success = true ∧
    (deleteBundleHandler bundleId true (.thrown m) .ok db).body.partialSuccess = some true ∧
    (deleteBundleHandler bundleId true (.thrown m) .ok db).body.storageError = some m ∧
    (deleteBundleHandler bundleId true (.thrown m) .ok db).status = 200 ∧
    (∀ storage : StorageOutcome,
      (deleteBundleHandler bundleId true storage .ok db).db = disableInDb db bundleId) ∧
    ∀ r ∈ (deleteBundleHandler bundleId true (.thrown m) .ok db).db,
      r.id = bundleId → r.enabled = false := by
  refine ⟨?_, ?_, ?_, ?_, ?_, ?_⟩
  · simp [deleteBundleHandler, hm]
  · simp [deleteBundleHandler, hm]
  · simp [deleteBundleHandler, hm]
  · simp [deleteBundleHandler, hm]
  · intro storage
    cases storage with
    | ok => simp [deleteBundleHandler]
    | thrown m' =>
      by_cases h : m' = "Bundle Not Found" <;> simp [deleteBundleHandler, h]
  · intro r hr hid
    refine disableInDb_enabled db bundleId r ?_ hid
    simpa [deleteBundleHandler, hm] using hr

/-- Witness for C1 at bundle "b1" with a concrete network failure. -/
theorem deleteBundle_storageFailure_stillDisables_witness :
    ("network down" ≠ "Bundle Not Found") ∧
    ((deleteBundleHandler "b1" true (.thrown "network down") .ok
        [{ id := "b1", enabled := true }]).body.success = true ∧
      (deleteBundleHandler "b1" true (.thrown "network down") .ok
        [{ id := "b1", enabled := true }]).body.partialSuccess = some true ∧
      (deleteBundleHandler "b1" true (.thrown "network down") .ok
        [{ id := "b1", enabled := true }]).body.storageError = some "network down" ∧
      (deleteBundleHandler "b1" true (.thrown "network down") .ok
        [{ id := "b1", enabled := true }]).status = 200 ∧
      (∀ storage : StorageOutcome,
        (deleteBundleHandler "b1" true storage .ok
          [{ id := "b1", enabled := true }]).db =
          disableInDb [{ id := "b1", enabled := true }] "b1") ∧
      ∀ r ∈ (deleteBundleHandler "b1" true (.thrown "network down") .ok
          [{ id := "b1", enabled := true }]).db,
        r.id = "b1" → r.enabled = false) :=
  ⟨by decide,
    deleteBundle_storageFailure_stillDisables "b1" "network down"
      [{ id := "b1", enabled := true }] (by decide)⟩

/-- C6: a failing metadata update/commit makes the whole soft delete a hard
error: success false, the thrown message as error, HTTP 500, the metadata
store unchanged — whatever the storage step did. -/
theorem deleteBundle_metadataFailure_hardError (bundleId m : String)
    (storageConfigured : Bool) (storage : StorageOutcome) (db : List BundleRec) :
    (deleteBundleHandler bundleId storageConfigured storage (.err m) db).body.success = false ∧
    (deleteBundleHandler bundleId storageConfigured storage (.err m) db).body.error = some m ∧
    (deleteBundleHandler bundleId storageConfigured storage (.err m) db).status = 500 ∧
    (deleteBundleHandler bundleId storageConfigured storage (.err m) db).db = db :=
  ⟨rfl, rfl, rfl, rfl⟩

/-- C5: the plugin's object delete is idempotent — deleting the same key
twice against any bucket succeeds both times, because the backend's
not-found outcome is swallowed as success — while any other thrown backend
failure is reported as an error. -/
theorem deleteObject_notFound_success_idempotent (store : List String) (key m : String)
    (hm : m ≠ "Bundle Not Found") :
    (deleteTwice store key).1 = .ok key ∧
    (deleteTwice store key).2 = .ok key ∧
    ∃ e, r2StorageDeleteBundle key (.thrown m) = .error e := by
  refine ⟨?_, ?_, ?_⟩
  · by_cases h : key ∈ store <;>
      simp [deleteTwice, wranglerDelete, h, r2StorageDeleteBundle]
  · by_cases h1 : key ∈ store
    · by_cases h2 : key ∈ store.erase key <;>
        simp [deleteTwice, wranglerDelete, h1, h2, r2StorageDeleteBundle]
    · simp [deleteTwice, wranglerDelete, h1, r2StorageDeleteBundle]
  · simp only [r2StorageDeleteBundle]
    rw [if_neg hm]
    by_cases h : (strIncludes m "wrangler: command not found" ||
        strIncludes m "Command failed with exit code 127") = true
    · exact ⟨_, if_pos h⟩
    · exact ⟨_, if_neg h⟩

/-- Witness for C5 at a concrete bucket, key and backend failure. -/
theorem deleteObject_notFound_success_idempotent_witness :
    ("auth error" ≠ "Bundle Not Found") ∧
    ((deleteTwice ["b1/bundle.zip"] "b1/bundle.zip").1 = .ok "b1/bundle.zip" ∧
      (deleteTwice ["b1/bundle.zip"] "b1/bundle.zip").2 = .ok "b1/bundle.zip" ∧
      ∃ e, r2StorageDeleteBundle "b1/bundle.zip" (.thrown "auth error") = .error e) :=
  ⟨by decide,
    deleteObject_notFound_success_idempotent ["b1/bundle.zip"] "b1/bundle.zip"
      "auth error" (by decide)⟩

/-- C7: for every non-empty array of K keys with configuration present, the
bulk object delete attempts each key independently (one result entry per
key, in the input order, so no failure aborts the rest), reports
totalObjects = K, and deletedObjects equals the number of result entries
whose success flag is true. -/
theorem bulkObjectDelete_perKeyAggregate (cfg : R2Config) (keys : List String)
    (delOk : String → Bool) (hk : keys ≠ []) (hc : r2ConfigOk cfg = true) :
    ((r2ObjectsDeleteHandler cfg (.arr keys) delOk).body.results.getD []).length
      = keys.length ∧
    ((r2ObjectsDeleteHandler cfg (.arr keys) delOk).body.results.getD []).map (·.key)
      = keys ∧
    (r2ObjectsDeleteHandler cfg (.arr keys) delOk).body.totalObjects
      = some keys.length ∧
    (r2ObjectsDeleteHandler cfg (.arr keys) delOk).body.deletedObjects
      = some (((r2ObjectsDeleteHandler cfg (.arr keys) delOk).body.results.getD []).filter
          (·.success)).length := by
  have hk' : keys.isEmpty = false := by
    cases keys with
    | nil => exact absurd rfl hk
    | cons a l => rfl
  refine ⟨?_, ?_, ?_, ?_⟩
  · simp [r2ObjectsDeleteHandler, hk', hc]
  · simpa [r2ObjectsDeleteHandler, hk', hc] using map_key_deleteOneKey delOk keys
  · simp [r2ObjectsDeleteHandler, hk', hc]
  · simp [r2ObjectsDeleteHandler, hk', hc]

/-- Witness for C7 at two concrete keys, one failing backend delete. -/
theorem bulkObjectDelete_perKeyAggregate_witness :
    (["b1/bundle.zip", "b2/bundle.zip"] ≠ ([] : List String)) ∧
    r2ConfigOk ⟨some "t", some "a", some "b"⟩ = true ∧
    (((r2ObjectsDeleteHandler ⟨some "t", some "a", some "b"⟩
          (.arr ["b1/bundle.zip", "b2/bundle.zip"])
          (fun k => k == "b1/bundle.zip")).body.results.getD []).length
        = (["b1/bundle.zip", "b2/bundle.zip"] : List String).length ∧
      ((r2ObjectsDeleteHandler ⟨some "t", some "a", some "b"⟩
          (.arr ["b1/bundle.zip", "b2/bundle.zip"])
          (fun k => k == "b1/bundle.zip")).body.results.getD []).map (·.key)
        = ["b1/bundle.zip", "b2/bundle.zip"] ∧
      (r2ObjectsDeleteHandler ⟨some "t", some "a", some "b"⟩
          (.arr ["b1/bundle.zip", "b2/bundle.zip"])
          (fun k => k == "b1/bundle.zip")).body.totalObjects
        = some (["b1/bundle.zip", "b2/bundle.zip"] : List String).length ∧
      (r2ObjectsDeleteHandler ⟨some "t", some "a", some "b"⟩
          (.arr ["b1/bundle.zip", "b2/bundle.zip"])
          (fun k => k == "b1/bundle.zip")).body.deletedObjects
        = some (((r2ObjectsDeleteHandler ⟨some "t", some "a", some "b"⟩
            (.arr ["b1/bundle.zip", "b2/bundle.zip"])
            (fun k => k == "b1/bundle.zip")).body.results.getD []).filter
            (·.success)).length) :=
  ⟨by decide, by decide,
    bulkObjectDelete_perKeyAggregate ⟨some "t", some "a", some "b"⟩
      ["b1/bundle.zip", "b2/bundle.zip"] (fun k => k == "b1/bundle.zip")
      (by decide) (by decide)⟩

/-- C8 counterexample: a bundle with two objects stored under b1/ that the
backend serves in two pages; the listing returns a single entry, not the
two entries under the id, because no truncation marker is followed. -/
theorem listObjects_pagination_cex :
    ¬ (((r2ObjectsListHandler ⟨some "t", some "a", some "b"⟩
            (.ok [[⟨"b1/bundle.zip", 7⟩], [⟨"b1/extra.zip", 9⟩]])).body.objects.getD
          []).length =
        (([[⟨"b1/bundle.zip", 7⟩], [⟨"b1/extra.zip", 9⟩]] : List (List R2Obj)).flatten.filter
          (fun o => strStartsWith o.key "b1/")).length) := by
  decide

/-- C8 amended: the listing issues exactly one backend list request and
returns only the first page of the backend's data; it yields all stored
entries only in the case the backend serves them in a single page. -/
theorem listObjects_firstPageOnly (cfg : R2Config) (pages : List (List R2Obj))
    (hc : r2ConfigOk cfg = true) :
    (r2ObjectsListHandler cfg (.ok pages)).body.objects = some (firstPage pages) ∧
    (r2ObjectsListHandler cfg (.ok pages)).backendCalls = 1 ∧
    ∀ objs, pages = [objs] →
      (r2ObjectsListHandler cfg (.ok pages)).body.objects = some objs := by
  refine ⟨?_, ?_, ?_⟩
  · simp [r2ObjectsListHandler, hc]
  · simp [r2ObjectsListHandler, hc]
  · intro objs h
    subst h
    simp [r2ObjectsListHandler, hc, firstPage]

/-- Witness for the amended C8 on a two-page backend. -/
theorem listObjects_firstPageOnly_witness :
    r2ConfigOk ⟨some "t", some "a", some "b"⟩ = true ∧
    ((r2ObjectsListHandler ⟨some "t", some "a", some "b"⟩
        (.ok [[⟨"b1/bundle.zip", 7⟩], [⟨"b1/extra.zip", 9⟩]])).body.objects =
      some (firstPage [[⟨"b1/bundle.zip", 7⟩], [⟨"b1/extra.zip", 9⟩]]) ∧
    (r2ObjectsListHandler ⟨some "t", some "a", some "b"⟩
        (.ok [[⟨"b1/bundle.zip", 7⟩], [⟨"b1/extra.zip", 9⟩]])).backendCalls = 1 ∧
    ∀ objs, [[⟨"b1/bundle.zip", 7⟩], [⟨"b1/extra.zip", 9⟩]] = [objs] →
      (r2ObjectsListHandler ⟨some "t", some "a", some "b"⟩
          (.ok [[⟨"b1/bundle.zip", 7⟩], [⟨"b1/extra.zip", 9⟩]])).body.objects = some objs) :=
  ⟨by decide,
    listObjects_firstPageOnly ⟨some "t", some "a", some "b"⟩
      [[⟨"b1/bundle.zip", 7⟩], [⟨"b1/extra.zip", 9⟩]] (by decide)⟩

/-- C4: evaluation at the failing input — bundle "b2" with three objects
under its id, storage reachable and every per-key backend delete
succeeding. The internal bulk delete call sends the wrapped object body,
the /r2/objects handler rejects the non-array shape as invalid, and the
reported r2Result carries success false with no deletedObjects and no
totalObjects counts instead of 3/3. -/
theorem completeDelete_countsMissing_bug :
    (completeDeleteHandler "b2" .ok ⟨some "t", some "a", some "b"⟩
        (.ok [[⟨"b2/a.zip", 1⟩, ⟨"b2/b.zip", 2⟩, ⟨"b2/c.zip", 3⟩]])
        (fun _ => true) [⟨"b2", true⟩]).body.success = true ∧
    (completeDeleteHandler "b2" .ok ⟨some "t", some "a", some "b"⟩
        (.ok [[⟨"b2/a.zip", 1⟩, ⟨"b2/b.zip", 2⟩, ⟨"b2/c.zip", 3⟩]])
        (fun _ => true) [⟨"b2", true⟩]).body.r2Result =
      some { success := false, deletedObjects := none, totalObjects := none } ∧
    (r2ObjectsDeleteHandler ⟨some "t", some "a", some "b"⟩
        (.wrapped ["b2/a.zip", "b2/b.zip", "b2/c.zip"]) (fun _ => true)).status = 400 := by
  refine ⟨?_, ?_, ?_⟩ <;> decide

/-- C9: with any required R2 environment variable missing, the object-store
endpoints answer a configuration-error outcome before any backend call, and
complete-delete degrades gracefully: the metadata disable still commits and
the result reports success true with the cleanup-skipped message, with no
storage call issued. -/
theorem missingConfig_noBackendCall (bundleId : String) (cfg : R2Config)
    (deleteOk : Bool) (listing : ListOutcome) (delOk : String → Bool)
    (db : List BundleRec) (keys : List String)
    (hc : r2ConfigOk cfg = false) (hk : keys ≠ []) :
    (r2DeleteHandler bundleId cfg deleteOk).body.success = false ∧
    (r2DeleteHandler bundleId cfg deleteOk).body.error =
      some "Thieu thong tin cau hinh Cloudflare R2" ∧
    (r2DeleteHandler bundleId cfg deleteOk).status = 400 ∧
    (r2DeleteHandler bundleId cfg deleteOk).backendCalls = 0 ∧
    (r2ObjectsDeleteHandler cfg (.arr keys) delOk).backendCalls = 0 ∧
    (r2ObjectsListHandler cfg listing).backendCalls = 0 ∧
    (completeDeleteHandler bundleId .ok cfg listing delOk db).body.success = true ∧
    (completeDeleteHandler bundleId .ok cfg listing delOk db).body.message =
      some "Bundle da bi vo hieu hoa trong database, nhung khong the xoa tu R2 do thieu cau hinh" ∧
    (completeDeleteHandler bundleId .ok cfg listing delOk db).storageCalls = 0 ∧
    (completeDeleteHandler bundleId .ok cfg listing delOk db).db = disableInDb db bundleId := by
  have hk' : keys.isEmpty = false := by
    cases keys with
    | nil => exact absurd rfl hk
    | cons a l => rfl
  refine ⟨?_, ?_, ?_, ?_, ?_, ?_, ?_, ?_, ?_, ?_⟩ <;>
    simp [r2DeleteHandler, r2ObjectsDeleteHandler, r2ObjectsListHandler,
      completeDeleteHandler, hc, hk']

/-- Witness for C9 with the API token variable absent. -/
theorem missingConfig_noBackendCall_witness :
    r2ConfigOk ⟨none, some "a", some "b"⟩ = false ∧
    (["b1/bundle.zip"] ≠ ([] : List String)) ∧
    ((r2DeleteHandler "b1" ⟨none, some "a", some "b"⟩ true).body.success = false ∧
      (r2DeleteHandler "b1" ⟨none, some "a", some "b"⟩ true).body.error =
        some "Thieu thong tin cau hinh Cloudflare R2" ∧
      (r2DeleteHandler "b1" ⟨none, some "a", some "b"⟩ true).status = 400 ∧
      (r2DeleteHandler "b1" ⟨none, some "a", some "b"⟩ true).backendCalls = 0 ∧
      (r2ObjectsDeleteHandler ⟨none, some "a", some "b"⟩ (.arr ["b1/bundle.zip"])
          (fun _ => true)).backendCalls = 0 ∧
      (r2ObjectsListHandler ⟨none, some "a", some "b"⟩ (.ok [])).backendCalls = 0 ∧
      (completeDeleteHandler "b1" .ok ⟨none, some "a", some "b"⟩ (.ok [])
          (fun _ => true) [⟨"b1", true⟩]).body.success = true ∧
      (completeDeleteHandler "b1" .ok ⟨none, some "a", some "b"⟩ (.ok [])
          (fun _ => true) [⟨"b1", true⟩]).body.message =
        some "Bundle da bi vo hieu hoa trong database, nhung khong the xoa tu R2 do thieu cau hinh" ∧
      (completeDeleteHandler "b1" .ok ⟨none, some "a", some "b"⟩ (.ok [])
          (fun _ => true) [⟨"b1", true⟩]).storageCalls = 0 ∧
      (completeDeleteHandler "b1" .ok ⟨none, some "a", some "b"⟩ (.ok [])
          (fun _ => true) [⟨"b1", true⟩]).db = disableInDb [⟨"b1", true⟩] "b1") :=
  ⟨by decide, by decide,
    missingConfig_noBackendCall "b1" ⟨none, some "a", some "b"⟩ true (.ok [])
      (fun _ => true) [⟨"b1", true⟩] ["b1/bundle.zip"] (by decide) (by decide)⟩

end HotUpdater

namespace HotUpdater

/-- C2 counterexample: for an id whose true size is 0 (no object under its
id), two sequential getFileSizes calls issue two backend fetches, not at
most one: the recorded 0 is falsy and treated as uncached. -/
theorem getFileSizes_zeroRefetch_cex :
    ¬ ((getFileSizes [] [] ["b1"]).fetchCalls +
        (getFileSizes [] (getFileSizes [] [] ["b1"]).cache ["b1"]).fetchCalls ≤ 1) := by
  decide

/-- C2 amended: starting from an empty cache, two sequential
getFileSizes([id]) calls return the same backend-determined size, and when
that size is nonzero the second call issues no backend fetch; a recorded
size of 0 is treated as uncached, so the id is refetched, the returned
value still being 0 both times. -/
theorem getFileSizes_cacheBehavior (objects : List R2Obj) (bundleId : String) :
    ((getFileSizes objects [] [bundleId]).fileSizes =
        [(bundleId, bundleSizeFor objects bundleId)] ∧
      (getFileSizes objects (getFileSizes objects [] [bundleId]).cache
          [bundleId]).fileSizes =
        [(bundleId, bundleSizeFor objects bundleId)] ∧
      (getFileSizes objects [] [bundleId]).fetchCalls = 1) ∧
    (bundleSizeFor objects bundleId ≠ 0 →
      (getFileSizes objects (getFileSizes objects [] [bundleId]).cache
        [bundleId]).fetchCalls = 0) ∧
    (bundleSizeFor objects bundleId = 0 →
      (getFileSizes objects (getFileSizes objects [] [bundleId]).cache
        [bundleId]).fetchCalls = 1) := by
  rcases h : bundleSizeFor objects bundleId with _ | n
  case zero =>
    have hfirst : getFileSizes objects [] [bundleId] =
        ⟨[(bundleId, 0)], [(bundleId, 0)], 1⟩ := by
      simp [getFileSizes, cacheTruthy, cacheLookup, fetchFileSizesFromR2, h]
    have hsecond : getFileSizes objects [(bundleId, 0)] [bundleId] =
        ⟨[(bundleId, 0)], [(bundleId, 0), (bundleId, 0)], 1⟩ := by
      simp [getFileSizes, cacheTruthy, cacheLookup, fetchFileSizesFromR2, h]
    refine ⟨⟨?_, ?_, ?_⟩, ?_, ?_⟩ <;> simp [hfirst, hsecond, h]
  case succ =>
    have hfirst : getFileSizes objects [] [bundleId] =
        ⟨[(bundleId, n + 1)], [(bundleId, n + 1)], 1⟩ := by
      simp [getFileSizes, cacheTruthy, cacheLookup, fetchFileSizesFromR2, h]
    have hsecond : getFileSizes objects [(bundleId, n + 1)] [bundleId] =
        ⟨[(bundleId, n + 1)], [(bundleId, n + 1)], 0⟩ := by
      simp [getFileSizes, cacheTruthy, cacheLookup, fetchFileSizesFromR2, h]
    refine ⟨⟨?_, ?_, ?_⟩, ?_, ?_⟩ <;> simp [hfirst, hsecond, h]

/-- Witness for the amended C2 at a bundle with one 1000-byte object. -/
theorem getFileSizes_cacheBehavior_witness :
    (getFileSizes [⟨"b1/bundle.zip", 1000⟩] [] ["b1"]).fetchCalls = 1 ∧
    (getFileSizes [⟨"b1/bundle.zip", 1000⟩]
        (getFileSizes [⟨"b1/bundle.zip", 1000⟩] [] ["b1"]).cache ["b1"]).fetchCalls = 0 ∧
    (getFileSizes [⟨"b1/bundle.zip", 1000⟩] [] ["b1"]).fileSizes =
      [("b1", bundleSizeFor [⟨"b1/bundle.zip", 1000⟩] "b1")] :=
  ⟨(getFileSizes_cacheBehavior [⟨"b1/bundle.zip", 1000⟩] "b1").1.2.2,
    (getFileSizes_cacheBehavior [⟨"b1/bundle.zip", 1000⟩] "b1").2.1 (by decide),
    (getFileSizes_cacheBehavior [⟨"b1/bundle.zip", 1000⟩] "b1").1.1⟩

/-- The D1 success counter of the sequential bulk loop never decreases. -/
theorem bulkFold_d1_mono (env : D1R2Env) (l : List String) :
    ∀ acc : Bool × Nat × Nat × List BundleItemResult,
      acc.2.1 ≤ (l.foldl (bulkStep env) acc).2.1 := by
  induction l with
  | nil => intro acc; exact le_refl _
  | cons a t ih =>
    intro acc
    calc acc.2.1 ≤ (bulkStep env acc a).2.1 := Nat.le_add_right _ _
    _ ≤ _ := ih _

/-- If the running all-succeeded flag is still true after the bulk loop, it
was already true before the loop. -/
theorem bulkFold_flag_true (env : D1R2Env) (l : List String) :
    ∀ acc : Bool × Nat × Nat × List BundleItemResult,
      (l.foldl (bulkStep env) acc).1 = true → acc.1 = true := by
  induction l with
  | nil => intro acc h; exact h
  | cons a t ih =>
    intro acc h
    have h1 : (bulkStep env acc a).1 = true := ih _ h
    have h2 : (acc.1 && (deleteD1Bundle env a).success) = true := h1
    simp only [Bool.and_eq_true] at h2
    exact h2.1

/-- C3 counterexample: one bundle whose metadata (D1) delete fails while
its storage (R2) delete succeeds — the storage success count is 1, yet
overall success is false, refuting the claimed metadata-OR-storage
semantics. -/
theorem bulkDelete_orSemantics_cex :
    ¬ ((bulkDeleteBundles ⟨fun _ => false, fun _ => true⟩ ["b1"]).success = true ↔
        (0 < (bulkDeleteBundles ⟨fun _ => false, fun _ => true⟩ ["b1"]).d1Success ∨
          0 < (bulkDeleteBundles ⟨fun _ => false, fun _ => true⟩ ["b1"]).r2Success)) := by
  decide

/-- C3 amended: for every non-empty id list, bulkDeleteBundles reports
overall success true exactly when the metadata (D1) success count is
nonzero; the storage-layer success count never contributes. -/
theorem bulkDelete_successIffMetadata (env : D1R2Env) (bundleIds : List String)
    (hk : bundleIds ≠ []) :
    (bulkDeleteBundles env bundleIds).success = true ↔
      0 < (bulkDeleteBundles env bundleIds).d1Success := by
  obtain ⟨a, t, rfl⟩ : ∃ a t, bundleIds = a :: t := by
    cases bundleIds with
    | nil => exact absurd rfl hk
    | cons a t => exact ⟨a, t, rfl⟩
  have hsucc : (bulkDeleteBundles env (a :: t)).success =
      ((List.foldl (bulkStep env) (true, 0, 0, ([] : List BundleItemResult)) (a :: t)).1 ||
        decide (0 < (List.foldl (bulkStep env)
          (true, 0, 0, ([] : List BundleItemResult)) (a :: t)).2.1)) := rfl
  have hd1 : (bulkDeleteBundles env (a :: t)).d1Success =
      (List.foldl (bulkStep env) (true, 0, 0, ([] : List BundleItemResult)) (a :: t)).2.1 := rfl
  rw [hsucc, hd1]
  constructor
  · intro h
    rw [Bool.or_eq_true] at h
    rcases h with hflag | hdec
    · have hflag' : (List.foldl (bulkStep env)
          (bulkStep env (true, 0, 0, ([] : List BundleItemResult)) a) t).1 = true := hflag
      have hstep : (bulkStep env (true, 0, 0, ([] : List BundleItemResult)) a).1 = true :=
        bulkFold_flag_true env t _ hflag'
      have hand : (true && (env.d1Ok a && env.r2Ok a)) = true := hstep
      simp only [Bool.true_and, Bool.and_eq_true] at hand
      have h1 : (bulkStep env (true, 0, 0, ([] : List BundleItemResult)) a).2.1 = 1 := by
        show (0 + if env.d1Ok a = true then 1 else 0) = 1
        simp [hand.1]
      calc 0 < 1 := Nat.zero_lt_one
      _ = (bulkStep env (true, 0, 0, ([] : List BundleItemResult)) a).2.1 := h1.symm
      _ ≤ _ := bulkFold_d1_mono env t _
    · exact of_decide_eq_true hdec
  · intro h
    rw [Bool.or_eq_true]
    exact Or.inr (decide_eq_true h)

/-- Witness for the amended C3 at scenario D: metadata delete succeeds for
all of b1 b2 b3, storage delete fails only for b2 — counts 3 and 2,
overall success true. -/
theorem bulkDelete_successIffMetadata_witness :
    ((["b1", "b2", "b3"] : List String) ≠ []) ∧
    ((bulkDeleteBundles ⟨fun _ => true, fun bundleId => bundleId != "b2"⟩
        ["b1", "b2", "b3"]).success = true ↔
      0 < (bulkDeleteBundles ⟨fun _ => true, fun bundleId => bundleId != "b2"⟩
        ["b1", "b2", "b3"]).d1Success) ∧
    (bulkDeleteBundles ⟨fun _ => true, fun bundleId => bundleId != "b2"⟩
      ["b1", "b2", "b3"]).d1Success = 3 ∧
    (bulkDeleteBundles ⟨fun _ => true, fun bundleId => bundleId != "b2"⟩
      ["b1", "b2", "b3"]).r2Success = 2 ∧
    (bulkDeleteBundles ⟨fun _ => true, fun bundleId => bundleId != "b2"⟩
      ["b1", "b2", "b3"]).success = true :=
  ⟨by decide,
    bulkDelete_successIffMetadata ⟨fun _ => true, fun bundleId => bundleId != "b2"⟩
      ["b1", "b2", "b3"] (by decide),
    by decide, by decide, by decide⟩

/-- C10 counterexample: the soft-delete endpoint's database-failure body
carries success false; the request resolves without throwing, yet the
wrapper's success is false — refuting that success is false only when the
request itself throws. -/
theorem clientDeleteBundle_resolvedFalse_cex :
    ¬ ((clientDeleteBundle (.resolved 500
          { success := some false, error := some "db commit failed" })).success = true) := by
  decide

/-- C10 amended: whenever the request resolves and the body lacks its own
success field, both wrappers report success true — also on an error status
with an error-only body; success is false exactly when the request throws
or the resolved body itself carries success false. -/
theorem clientWrappers_spreadSuccess (status : Nat) (body : ServerJson) (m : String) :
    (body.success = none →
      (clientDeleteBundle (.resolved status body)).success = true ∧
      (clientDisableBundle (.resolved status body)).success = true) ∧
    (∀ b, body.success = some b →
      (clientDeleteBundle (.resolved status body)).success = b ∧
      (clientDisableBundle (.resolved status body)).success = b) ∧
    (clientDeleteBundle (.thrown m)).success = false ∧
    (clientDisableBundle (.thrown m)).success = false := by
  refine ⟨?_, ?_, rfl, rfl⟩
  · intro h
    constructor <;> simp [clientDeleteBundle, clientDisableBundle, spreadSuccessTrue, h]
  · intro b h
    constructor <;> simp [clientDeleteBundle, clientDisableBundle, spreadSuccessTrue, h]

/-- Witness for the amended C10: a resolved 500 with an error-only body
gives success true; a thrown request gives success false. -/
theorem clientWrappers_spreadSuccess_witness :
    (clientDeleteBundle (.resolved 500 { error := some "Unknown error" })).success = true ∧
    (clientDisableBundle (.resolved 500 { error := some "Unknown error" })).success = true ∧
    (clientDeleteBundle (.thrown "network down")).success = false :=
  ⟨((clientWrappers_spreadSuccess 500 { error := some "Unknown error" } "network down").1 rfl).1,
    ((clientWrappers_spreadSuccess 500 { error := some "Unknown error" } "network down").1 rfl).2,
    (clientWrappers_spreadSuccess 500 { error := some "Unknown error" } "network down").2.2.1⟩

end HotUpdater
